import Mathlib

/-!
Verification of the crystal-dataset loading core of cond-cdvae
(`cdvae/pl_data/dataset.py`): the cache-or-load state machine of
`CrystDataset.__init__` and `TensorCrystDataset.__init__`, the per-sample
graph builder in the two `__getitem__` methods, and the dataset facade
surface (`__len__`, `__repr__`).

External collaborators (`preprocess`, `preprocess_tensors`,
`add_scaled_lattice_prop`, the `Scaler`, the pickle persistence layer) live
in `cdvae.common.data_utils` outside the analysed source; they are modelled
by their declared results and recorded as events so that invocation counts
and ordering can be stated.  Numbers are embedded as rationals and integers;
tensors as nested lists.
-/

set_option autoImplicit false

namespace CDVAE

/-- Association-list lookup with string keys; models Python dict lookup
(`data_dict[key]`) and the filesystem path table. -/
def assocLookup {α : Type} : List (String × α) → String → Option α
  | [], _ => none
  | (k, v) :: rest, key => if k = key then some v else assocLookup rest key

/-- Python list indexing semantics: a negative index is first offset by the
list length; the access succeeds iff the adjusted index lies in
`[0, length)`.  This embeds `self.cached_data[index]`. -/
def pyListGet {α : Type} (xs : List α) (i : Int) : Option α :=
  let j : Int := if i < 0 then i + xs.length else i
  if 0 ≤ j then xs.get? j.toNat else none

/-- Modelled from the spec: the property `Scaler` lives in
`cdvae.common.data_utils` (outside the analysed source).  Per the spec it
holds location/scale parameters fit once over the collection and
`transform` is a pure fixed-parameter affine standardization of a value. -/
structure Scaler where
  mean : ℚ
  std : ℚ
  deriving DecidableEq

/-- Modelled from the spec: `transform(x)` is a pure function of the value
and the fitted parameters, `(x - mean) / std`-style. -/
def Scaler.transform (s : Scaler) (x : ℚ) : ℚ := (x - s.mean) / s.std

/-- The `graph_arrays` tuple of one processed crystal, in the fixed
positional order unpacked by both `__getitem__` methods: fractional
coordinates (N×3), atom types (length N), lattice lengths (3), lattice
angles (3), periodic edge list (M×2 pairs), periodic image offsets (M×3),
atom count N. -/
structure GraphArrays where
  frac_coords : List (List ℚ)
  atom_types : List ℤ
  lengths : List ℚ
  angles : List ℚ
  edge_indices : List (ℤ × ℤ)
  to_jimages : List (List ℤ)
  num_atoms : ℕ
  deriving DecidableEq

/-- One cached record: scalar property values keyed by name, the
`graph_arrays` tuple, and the derived `scaled_lattice` value (absent until
the augmentation step attaches it). -/
structure CachedRecord where
  props : List (String × ℚ)
  graph_arrays : GraphArrays
  scaled_lattice : Option ℚ
  deriving DecidableEq

/-- The lattice-scaling policy: from the method identifier, the lattice
lengths, the angles and the atom count to the scalar `scaled_lattice`
value.  The numeric formula is external (out-of-scope collaborator), so it
is a parameter of the model. -/
abbrev LatticePolicy := String → List ℚ → List ℚ → ℕ → ℚ

/-- Modelled from the spec: `add_scaled_lattice_prop` lives in
`cdvae.common.data_utils` (outside the analysed source).  Per the spec it
computes, once per record, a `scaled_lattice` value from the lattice
lengths/angles and the atom count under the configured policy, and attaches
it to every record of the list. -/
def add_scaled_lattice_prop (policy : LatticePolicy) (records : List CachedRecord)
    (method : String) : List CachedRecord :=
  records.map fun r =>
    { r with
      scaled_lattice :=
        some (policy method r.graph_arrays.lengths r.graph_arrays.angles
          r.graph_arrays.num_atoms) }

/-- Observable effects of dataset construction: calls into the external
collaborators and filesystem traffic, with their arguments. -/
inductive Event where
  | preprocessCall (path : String) (workers : ℕ) (niggli primitive : Bool)
      (graph_method : String) (prop_list : List String)
  | preprocessTensorsCall (niggli primitive : Bool) (graph_method : String)
  | fsWrite (path : String)
  | fsRead (path : String)
  | scaledLatticeCall (records : List CachedRecord) (method : String)
  deriving DecidableEq

/-- Discriminator: is this event a call to `preprocess`? -/
def Event.isPreprocessCall : Event → Bool
  | .preprocessCall .. => true
  | _ => false

/-- Discriminator: is this event a call to `preprocess_tensors`? -/
def Event.isPreprocessTensorsCall : Event → Bool
  | .preprocessTensorsCall .. => true
  | _ => false

/-- Discriminator: is this event a call to `add_scaled_lattice_prop`? -/
def Event.isScaledLatticeCall : Event → Bool
  | .scaledLatticeCall .. => true
  | _ => false

/-- Discriminator: is this event a filesystem read or write? -/
def Event.isFsAccess : Event → Bool
  | .fsWrite _ => true
  | .fsRead _ => true
  | _ => false

/-- Errors the embedded code can raise, mirroring the Python exceptions. -/
inductive PyError where
  | indexError
  | keyError (key : String)
  | attributeError (msg : String)
  | valueError (msg : String)
  | unpicklingError
  deriving DecidableEq

/-- The filesystem, as a table from paths to the deserialized blobs stored
there (the pickle layer is opaque, so files hold record lists directly). -/
abbrev FS := List (String × List CachedRecord)

/-- `Path(p).exists()`. -/
def fsExists (fs : FS) (p : String) : Bool := (assocLookup fs p).isSome

/-- `pickle.load(open(p, 'rb'))`. -/
def fsLoad (fs : FS) (p : String) : Option (List CachedRecord) := assocLookup fs p

/-- `pickle.dump(blob, open(p, 'wb'))`: the path now maps to the blob. -/
def fsStore (fs : FS) (p : String) (blob : List CachedRecord) : FS := (p, blob) :: fs

/-- Transpose of the stored M×2 edge list into the 2×M orientation:
`edge_indices.T`, row 0 holding the first member of every pair and row 1
the second, so that column j is the j-th stored pair. -/
def edgeTranspose (es : List (ℤ × ℤ)) : List (List ℤ) :=
  [es.map Prod.fst, es.map Prod.snd]

/-- The per-sample output bundle (`torch_geometric.data.Data`): the
SampleGraph.  `lengths`/`angles` are reshaped to 1×3 rows, `edge_index` is
the 2×M transpose, and `y` is the normalized scalar target reshaped to 1×1
(present only for the labelled variant). -/
structure Data where
  frac_coords : List (List ℚ)
  atom_types : List ℤ
  lengths : List (List ℚ)
  angles : List (List ℚ)
  edge_index : List (List ℤ)
  to_jimages : List (List ℤ)
  num_atoms : ℕ
  num_bonds : ℕ
  num_nodes : ℕ
  y : Option (List (List ℚ))
  deriving DecidableEq

/-- State of the labelled dataset (`CrystDataset`) after construction. -/
structure CrystDataset where
  name : String
  path : String
  save_path : String
  force_process : Bool
  prop : String
  niggli : Bool
  primitive : Bool
  graph_method : String
  lattice_scale_method : String
  cached_data : List CachedRecord
  lattice_scaler : Option Scaler
  scaler : Option Scaler
  deriving DecidableEq

/-- `CrystDataset.__init__`.  The external `preprocess` collaborator is
modelled by the record list it would return (`preprocessResult`); the
filesystem by `fs`.  Returns the constructed dataset, the resulting
filesystem, and the trace of collaborator/filesystem events, or the
propagated error.  Mirrors the source: if `force_process` or the save path
does not exist, preprocess then dump the raw list; otherwise load the blob;
in both branches then run `add_scaled_lattice_prop` on `cached_data` and
initialise both scalers to `None`. -/
def CrystDataset.init (policy : LatticePolicy) (preprocessResult : List CachedRecord)
    (fs : FS) (name path save_path : String) (force_process : Bool) (prop : String)
    (niggli primitive : Bool) (graph_method : String) (preprocess_workers : ℕ)
    (lattice_scale_method : String) :
    Except PyError (CrystDataset × FS × List Event) :=
  if force_process || !(fsExists fs save_path) then
    Except.ok
      ({ name := name, path := path, save_path := save_path,
         force_process := force_process, prop := prop, niggli := niggli,
         primitive := primitive, graph_method := graph_method,
         lattice_scale_method := lattice_scale_method,
         cached_data := add_scaled_lattice_prop policy preprocessResult lattice_scale_method,
         lattice_scaler := none, scaler := none },
       fsStore fs save_path preprocessResult,
       [Event.preprocessCall path preprocess_workers niggli primitive graph_method [prop],
        Event.fsWrite save_path,
        Event.scaledLatticeCall preprocessResult lattice_scale_method])
  else
    match fsLoad fs save_path with
    | none => Except.error PyError.unpicklingError
    | some blob =>
      Except.ok
        ({ name := name, path := path, save_path := save_path,
           force_process := force_process, prop := prop, niggli := niggli,
           primitive := primitive, graph_method := graph_method,
           lattice_scale_method := lattice_scale_method,
           cached_data := add_scaled_lattice_prop policy blob lattice_scale_method,
           lattice_scaler := none, scaler := none },
         fs,
         [Event.fsRead save_path,
          Event.scaledLatticeCall blob lattice_scale_method])

/-- `CrystDataset.__len__`. -/
def CrystDataset.len (ds : CrystDataset) : ℕ := ds.cached_data.length

/-- `CrystDataset.__getitem__`.  Faithful to the source order of effects:
index the cached list (Python semantics, may raise `IndexError`), then
evaluate `self.scaler.transform` — with `scaler` still `None` this is an
`AttributeError`, the in-source guard raising a `ValueError` being commented
out — then look up the property key, then build the `Data` bundle. -/
def CrystDataset.getItem (ds : CrystDataset) (index : ℤ) : Except PyError Data :=
  match pyListGet ds.cached_data index with
  | none => Except.error PyError.indexError
  | some data_dict =>
    match ds.scaler with
    | none =>
      Except.error (PyError.attributeError "NoneType object has no attribute transform")
    | some sc =>
      match assocLookup data_dict.props ds.prop with
      | none => Except.error (PyError.keyError ds.prop)
      | some v =>
        let ga := data_dict.graph_arrays
        Except.ok
          { frac_coords := ga.frac_coords,
            atom_types := ga.atom_types,
            lengths := [ga.lengths],
            angles := [ga.angles],
            edge_index := edgeTranspose ga.edge_indices,
            to_jimages := ga.to_jimages,
            num_atoms := ga.num_atoms,
            num_bonds := ga.edge_indices.length,
            num_nodes := ga.num_atoms,
            y := some [[sc.transform v]] }

/-- `CrystDataset.__repr__`: the human-readable summary, built from the
name, the source path and the save path only. -/
def CrystDataset.repr (ds : CrystDataset) : String :=
  "CrystDataset(self.name=" ++ ds.name ++ ", self.path=" ++ ds.path ++
    ", self.save_path=" ++ ds.save_path ++ ")"

/-- Method-call view of `__len__`: result paired with the post-call state
(the source method reads `self.cached_data` and assigns nothing). -/
def CrystDataset.lenM (ds : CrystDataset) : ℕ × CrystDataset :=
  (ds.len, ds)

/-- Method-call view of `__getitem__`: result paired with the post-call
state (the source method builds a fresh `Data` and assigns nothing). -/
def CrystDataset.getItemM (ds : CrystDataset) (index : ℤ) :
    Except PyError Data × CrystDataset :=
  (ds.getItem index, ds)

/-- State of the label-free dataset (`TensorCrystDataset`). -/
structure TensorCrystDataset where
  niggli : Bool
  primitive : Bool
  graph_method : String
  lattice_scale_method : String
  cached_data : List CachedRecord
  lattice_scaler : Option Scaler
  scaler : Option Scaler
  deriving DecidableEq

/-- `TensorCrystDataset.__init__`.  The external `preprocess_tensors`
collaborator is modelled by the record list it would return for the given
in-memory crystal array list.  Always calls the collaborator directly, never
touches the filesystem (the source has no path argument and no pickle
calls), then runs `add_scaled_lattice_prop` and initialises both scalers to
`None`.  `preprocess_workers` is accepted and unused, as in the source. -/
def TensorCrystDataset.init (policy : LatticePolicy)
    (preprocessTensorsResult : List CachedRecord) (niggli primitive : Bool)
    (graph_method : String) (preprocess_workers : ℕ) (lattice_scale_method : String) :
    TensorCrystDataset × List Event :=
  ({ niggli := niggli, primitive := primitive, graph_method := graph_method,
     lattice_scale_method := lattice_scale_method,
     cached_data := add_scaled_lattice_prop policy preprocessTensorsResult lattice_scale_method,
     lattice_scaler := none, scaler := none },
   [Event.preprocessTensorsCall niggli primitive graph_method,
    Event.scaledLatticeCall preprocessTensorsResult lattice_scale_method])

/-- `TensorCrystDataset.__len__`. -/
def TensorCrystDataset.len (ts : TensorCrystDataset) : ℕ := ts.cached_data.length

/-- `TensorCrystDataset.__getitem__`: like the labelled variant but with no
scaler step and no `y` field in the output bundle. -/
def TensorCrystDataset.getItem (ts : TensorCrystDataset) (index : ℤ) :
    Except PyError Data :=
  match pyListGet ts.cached_data index with
  | none => Except.error PyError.indexError
  | some data_dict =>
    let ga := data_dict.graph_arrays
    Except.ok
      { frac_coords := ga.frac_coords,
        atom_types := ga.atom_types,
        lengths := [ga.lengths],
        angles := [ga.angles],
        edge_index := edgeTranspose ga.edge_indices,
        to_jimages := ga.to_jimages,
        num_atoms := ga.num_atoms,
        num_bonds := ga.edge_indices.length,
        num_nodes := ga.num_atoms,
        y := none }

/-- Method-call view of the label-free `__len__`. -/
def TensorCrystDataset.lenM (ts : TensorCrystDataset) : ℕ × TensorCrystDataset :=
  (ts.len, ts)

/-- Method-call view of the label-free `__getitem__`. -/
def TensorCrystDataset.getItemM (ts : TensorCrystDataset) (index : ℤ) :
    Except PyError Data × TensorCrystDataset :=
  (ts.getItem index, ts)

/-! Concrete example values used to instantiate the theorems. -/

/-- A concrete lattice-scaling policy (the external formula is opaque; here
the atom count, cast to `ℚ`). -/
def polEx : LatticePolicy := fun _ _ _ n => (n : ℚ)

/-- A concrete `graph_arrays` tuple: two atoms, two periodic edges. -/
def gaEx : GraphArrays :=
  { frac_coords := [[0, 0, 0], [1/2, 1/2, 1/2]],
    atom_types := [1, 2],
    lengths := [1, 1, 1],
    angles := [90, 90, 90],
    edge_indices := [(0, 1), (1, 0)],
    to_jimages := [[0, 0, 0], [0, 0, 0]],
    num_atoms := 2 }

/-- A raw cached record as `preprocess` would return it (no
`scaled_lattice` yet). -/
def recEx : CachedRecord :=
  { props := [("formation_energy", 3)], graph_arrays := gaEx, scaled_lattice := none }

/-- `recEx` after the scaled-lattice augmentation under `polEx`. -/
def recExAug : CachedRecord :=
  { recEx with scaled_lattice := some ((2 : ℕ) : ℚ) }

/-- The labelled dataset produced by the compute path on an empty
filesystem. -/
def dsEx1 : CrystDataset :=
  { name := "mp20", path := "train.csv", save_path := "train.pkl",
    force_process := true, prop := "formation_energy", niggli := true,
    primitive := false, graph_method := "crystalnn",
    lattice_scale_method := "scale_length",
    cached_data := add_scaled_lattice_prop polEx [recEx] "scale_length",
    lattice_scaler := none, scaler := none }

/-- The filesystem after the compute path persisted the raw list. -/
def fsEx1 : FS := [("train.pkl", [recEx])]

/-- The event trace of the compute path. -/
def evsEx1 : List Event :=
  [Event.preprocessCall "train.csv" 4 true false "crystalnn" ["formation_energy"],
   Event.fsWrite "train.pkl",
   Event.scaledLatticeCall [recEx] "scale_length"]

/-- `dsEx1` after the DataModule set stage attached the two scalers. -/
def dsEx : CrystDataset :=
  { dsEx1 with lattice_scaler := some ⟨0, 1⟩, scaler := some ⟨2, 1⟩ }

/-- A label-free dataset over the single record `recEx`. -/
def tsEx : TensorCrystDataset :=
  (TensorCrystDataset.init polEx [recEx] true false "crystalnn" 4 "scale_length").1

/-- The `Data` bundle `tsEx` yields for its only record. -/
def dataTsEx : Data :=
  { frac_coords := gaEx.frac_coords,
    atom_types := gaEx.atom_types,
    lengths := [gaEx.lengths],
    angles := [gaEx.angles],
    edge_index := edgeTranspose gaEx.edge_indices,
    to_jimages := gaEx.to_jimages,
    num_atoms := 2, num_bonds := 2, num_nodes := 2,
    y := none }

/-- The `Data` bundle `dsEx` yields for its only record: the target `3` is
standardized by the attached scaler (to `(3 - 2) / 1`) and reshaped to
1×1. -/
def dataDsEx : Data :=
  { dataTsEx with y := some [[Scaler.transform ⟨2, 1⟩ 3]] }

/-! Helper lemmas about Python list indexing. -/

/-- A successful Python-style indexed access returns an element of the
list. -/
theorem pyListGet_mem {α : Type} {xs : List α} {i : ℤ} {x : α}
    (h : pyListGet xs i = some x) : x ∈ xs := by
  simp only [pyListGet] at h
  by_cases hi : i < 0
  · rw [if_pos hi] at h
    split at h
    · exact List.get?_mem h
    · exact absurd h (by simp)
  · rw [if_neg hi] at h
    split at h
    · exact List.get?_mem h
    · exact absurd h (by simp)

/-- Out-of-range Python indices (`i < -len` or `i ≥ len`) yield no
element. -/
theorem pyListGet_oob {α : Type} (xs : List α) (i : ℤ)
    (h : i < -(xs.length : ℤ) ∨ (xs.length : ℤ) ≤ i) : pyListGet xs i = none := by
  simp only [pyListGet]
  rcases h with h | h
  · rw [if_pos (show i < 0 by omega)]
    rw [if_neg (show ¬ (0 : ℤ) ≤ i + xs.length by omega)]
  · rw [if_neg (show ¬ i < 0 by omega)]
    rw [if_pos (show (0 : ℤ) ≤ i by omega)]
    exact List.get?_eq_none.mpr (by omega)

/-- An in-range negative Python index behaves as the index offset by the
list length. -/
theorem pyListGet_wrap {α : Type} (xs : List α) (i : ℤ) (h1 : i < 0)
    (h2 : 0 ≤ i + xs.length) :
    pyListGet xs i = pyListGet xs (i + xs.length) := by
  simp only [pyListGet]
  rw [if_pos h1, if_neg (show ¬ i + (xs.length : ℤ) < 0 by omega)]

/-- Inversion of a successful labelled access: it determines the record,
the attached scaler, the looked-up property value, and every field of the
returned bundle. -/
theorem CrystDataset.getItem_ok_inv {ds : CrystDataset} {i : ℤ} {d : Data}
    (h : ds.getItem i = Except.ok d) :
    ∃ r sc v,
      pyListGet ds.cached_data i = some r ∧ ds.scaler = some sc ∧
      assocLookup r.props ds.prop = some v ∧
      d = { frac_coords := r.graph_arrays.frac_coords,
            atom_types := r.graph_arrays.atom_types,
            lengths := [r.graph_arrays.lengths],
            angles := [r.graph_arrays.angles],
            edge_index := edgeTranspose r.graph_arrays.edge_indices,
            to_jimages := r.graph_arrays.to_jimages,
            num_atoms := r.graph_arrays.num_atoms,
            num_bonds := r.graph_arrays.edge_indices.length,
            num_nodes := r.graph_arrays.num_atoms,
            y := some [[sc.transform v]] } := by
  unfold CrystDataset.getItem at h
  split at h
  · exact absurd h (by simp)
  rename_i r heq
  split at h
  · exact absurd h (by simp)
  rename_i sc hsc
  split at h
  · exact absurd h (by simp)
  rename_i v hv
  refine ⟨r, sc, v, heq, hsc, hv, ?_⟩
  injection h with h2
  exact h2.symm

/-- Inversion of a successful label-free access. -/
theorem TensorCrystDataset.getItem_ok_inversion {ts : TensorCrystDataset} {i : ℤ} {d : Data}
    (h : ts.getItem i = Except.ok d) :
    ∃ r,
      pyListGet ts.cached_data i = some r ∧
      d = { frac_coords := r.graph_arrays.frac_coords,
            atom_types := r.graph_arrays.atom_types,
            lengths := [r.graph_arrays.lengths],
            angles := [r.graph_arrays.angles],
            edge_index := edgeTranspose r.graph_arrays.edge_indices,
            to_jimages := r.graph_arrays.to_jimages,
            num_atoms := r.graph_arrays.num_atoms,
            num_bonds := r.graph_arrays.edge_indices.length,
            num_nodes := r.graph_arrays.num_atoms,
            y := none } := by
  unfold TensorCrystDataset.getItem at h
  split at h
  · exact absurd h (by simp)
  rename_i r heq
  refine ⟨r, heq, ?_⟩
  injection h with h2
  exact h2.symm

/-! The claims. -/

/-- C1: the claim says an indexed access on a labelled dataset whose scaler
was never attached must fail with the specific, named "not configured"
error.  The code contradicts it: the guard raising the designated
`ValueError` is commented out in the source, so `self.scaler.transform`
is evaluated on `None` and an unrelated `AttributeError` is raised.  This
theorem evaluates the code at the failing input: a freshly constructed
dataset (scaler still `None`) accessed at index 0 yields the
`AttributeError`, which is not the designated `ValueError`. -/
theorem C1_scaler_none_attributeError :
    (CrystDataset.init polEx [recEx] [] "mp20" "train.csv" "train.pkl" true
        "formation_energy" true false "crystalnn" 4 "scale_length").map
      (fun out => (out.1.scaler, out.1.getItem 0)) =
      Except.ok ((none : Option Scaler),
        Except.error (PyError.attributeError "NoneType object has no attribute transform")) ∧
    Except.error (PyError.attributeError "NoneType object has no attribute transform") ≠
      (Except.error (PyError.valueError "Scaler should be set before used") :
        Except PyError Data) := by
  refine ⟨rfl, fun hcontra => ?_⟩
  injection hcontra with h2
  exact PyError.noConfusion h2

/-- C3 counterexample: the claim says every negative index is rejected with
an out-of-range error; but on a one-record label-free dataset, the access
at index `-1` succeeds, Python-style, returning the last sample. -/
theorem C3_cex_negative_index_succeeds :
    tsEx.getItem (-1) = Except.ok dataTsEx ∧ tsEx.len = 1 := by
  constructor
  · rfl
  · rfl

/-- C3 (amended): for both dataset variants, `at(index)` fails with the
out-of-range error exactly for `index ≥ length()` or `index < -length()`;
a negative index with `-length() ≤ index < 0` is interpreted as an offset
from the end (`at(index) = at(index + length())`), not rejected. -/
theorem C3_index_bounds_python_semantics :
    (∀ (ds : CrystDataset) (i : ℤ),
      (i < -(ds.len : ℤ) ∨ (ds.len : ℤ) ≤ i →
        ds.getItem i = Except.error PyError.indexError) ∧
      (i < 0 → -(ds.len : ℤ) ≤ i → ds.getItem i = ds.getItem (i + ds.len))) ∧
    (∀ (ts : TensorCrystDataset) (i : ℤ),
      (i < -(ts.len : ℤ) ∨ (ts.len : ℤ) ≤ i →
        ts.getItem i = Except.error PyError.indexError) ∧
      (i < 0 → -(ts.len : ℤ) ≤ i → ts.getItem i = ts.getItem (i + ts.len))) := by
  constructor
  · intro ds i
    constructor
    · intro h
      unfold CrystDataset.getItem
      rw [pyListGet_oob ds.cached_data i h]
    · intro h1 h2
      unfold CrystDataset.getItem
      rw [pyListGet_wrap ds.cached_data i h1 (by simp only [CrystDataset.len] at h2; omega)]
      rfl
  · intro ts i
    constructor
    · intro h
      unfold TensorCrystDataset.getItem
      rw [pyListGet_oob ts.cached_data i h]
    · intro h1 h2
      unfold TensorCrystDataset.getItem
      rw [pyListGet_wrap ts.cached_data i h1 (by simp only [TensorCrystDataset.len] at h2; omega)]
      rfl

/-- C3 witness: the amended theorem applied to concrete datasets — index 5
on a one-record labelled dataset is rejected, and index -1 on a one-record
label-free dataset equals the access at `-1 + length()`. -/
theorem C3_index_bounds_python_semantics_witness :
    dsEx.getItem 5 = Except.error PyError.indexError ∧
    tsEx.getItem (-1) = tsEx.getItem (-1 + (tsEx.len : ℤ)) :=
  ⟨(C3_index_bounds_python_semantics.1 dsEx 5).1 (Or.inr (by decide)),
   (C3_index_bounds_python_semantics.2 tsEx (-1)).2 (by decide) (by decide)⟩

/-- C4: for every valid index (of either variant), the returned
`edge_index` is the transpose of the record's stored M×2 edge list — a 2×M
array whose column `j` holds the j-th stored pair — and the values are
exactly the stored per-sample local atom indices, with no node-count offset
added. -/
theorem C4_edge_index_transpose_no_offset :
    (∀ (ds : CrystDataset) (i : ℤ) (r : CachedRecord) (d : Data),
      pyListGet ds.cached_data i = some r → ds.getItem i = Except.ok d →
      d.edge_index = edgeTranspose r.graph_arrays.edge_indices ∧
      ∀ (j : ℕ) (ab : ℤ × ℤ), r.graph_arrays.edge_indices.get? j = some ab →
        (d.edge_index.get? 0).bind (fun row => row.get? j) = some ab.1 ∧
        (d.edge_index.get? 1).bind (fun row => row.get? j) = some ab.2) ∧
    (∀ (ts : TensorCrystDataset) (i : ℤ) (r : CachedRecord) (d : Data),
      pyListGet ts.cached_data i = some r → ts.getItem i = Except.ok d →
      d.edge_index = edgeTranspose r.graph_arrays.edge_indices ∧
      ∀ (j : ℕ) (ab : ℤ × ℤ), r.graph_arrays.edge_indices.get? j = some ab →
        (d.edge_index.get? 0).bind (fun row => row.get? j) = some ab.1 ∧
        (d.edge_index.get? 1).bind (fun row => row.get? j) = some ab.2) := by
  constructor
  · intro ds i r d hr hd
    obtain ⟨r2, sc, v, hr2, hsc, hv, hdef⟩ := CrystDataset.getItem_ok_inv hd
    rw [hr] at hr2
    injection hr2 with hreq
    subst hreq
    subst hdef
    refine ⟨rfl, fun j ab hj => ?_⟩
    constructor
    · show (r.graph_arrays.edge_indices.map Prod.fst).get? j = some ab.1
      rw [List.get?_map, hj]
      rfl
    · show (r.graph_arrays.edge_indices.map Prod.snd).get? j = some ab.2
      rw [List.get?_map, hj]
      rfl
  · intro ts i r d hr hd
    obtain ⟨r2, hr2, hdef⟩ := TensorCrystDataset.getItem_ok_inversion hd
    rw [hr] at hr2
    injection hr2 with hreq
    subst hreq
    subst hdef
    refine ⟨rfl, fun j ab hj => ?_⟩
    constructor
    · show (r.graph_arrays.edge_indices.map Prod.fst).get? j = some ab.1
      rw [List.get?_map, hj]
      rfl
    · show (r.graph_arrays.edge_indices.map Prod.snd).get? j = some ab.2
      rw [List.get?_map, hj]
      rfl

/-- C4 witness: the theorem applied to a concrete labelled dataset at
index 0, with the column instance at `j = 0`, whose stored pair is
`(0, 1)`. -/
theorem C4_edge_index_transpose_no_offset_witness :
    dataDsEx.edge_index = edgeTranspose recExAug.graph_arrays.edge_indices ∧
    ((dataDsEx.edge_index.get? 0).bind (fun row => row.get? 0) = some 0 ∧
     (dataDsEx.edge_index.get? 1).bind (fun row => row.get? 0) = some 1) := by
  have h := C4_edge_index_transpose_no_offset.1 dsEx 0 recExAug dataDsEx rfl rfl
  exact ⟨h.1, h.2 0 (0, 1) rfl⟩

/-- C5: under the §3 invariant (coordinate row count and atom-type length
equal the stored atom count), every successful labelled access yields a
bundle whose atom count equals the row count of its coordinate array and
whose bond count equals the row count of the stored edge list before
transpose. -/
theorem C5_counts_consistent :
    ∀ (ds : CrystDataset) (i : ℤ) (r : CachedRecord) (d : Data),
      (∀ rec ∈ ds.cached_data,
        rec.graph_arrays.frac_coords.length = rec.graph_arrays.num_atoms ∧
        rec.graph_arrays.atom_types.length = rec.graph_arrays.num_atoms) →
      pyListGet ds.cached_data i = some r →
      ds.getItem i = Except.ok d →
      d.num_atoms = d.frac_coords.length ∧
      d.num_bonds = r.graph_arrays.edge_indices.length := by
  intro ds i r d hinv hr hd
  obtain ⟨r2, sc, v, hr2, hsc, hv, hdef⟩ := CrystDataset.getItem_ok_inv hd
  rw [hr] at hr2
  injection hr2 with hreq
  subst hreq
  subst hdef
  exact ⟨(hinv r (pyListGet_mem hr)).1.symm, rfl⟩

/-- C5 witness: the theorem applied to a concrete labelled dataset whose
single record has 2 atoms and 2 edges, at index 0. -/
theorem C5_counts_consistent_witness :
    dataDsEx.num_atoms = dataDsEx.frac_coords.length ∧
    dataDsEx.num_bonds = recExAug.graph_arrays.edge_indices.length :=
  C5_counts_consistent dsEx 0 recExAug dataDsEx (by decide) rfl rfl

/-- C2: cache decision of the labelled constructor.  If the force flag is
set or the destination path does not exist, `preprocess` is invoked
(exactly one call event) and its result is persisted at the destination
path; otherwise the persisted blob is deserialized and used directly (the
`cached_data` is the augmented blob), the filesystem is unchanged, and
`preprocess` is not invoked at all (zero call events). -/
theorem C2_cache_decision :
    ∀ (policy : LatticePolicy) (pre : List CachedRecord) (fs : FS)
      (name path save_path : String) (force : Bool) (prop : String)
      (niggli primitive : Bool) (gm : String) (w : ℕ) (lsm : String),
      ((force = true ∨ fsExists fs save_path = false) →
        (CrystDataset.init policy pre fs name path save_path force prop niggli
            primitive gm w lsm).map
          (fun out => ((out.2.2.filter Event.isPreprocessCall).length,
                       fsLoad out.2.1 save_path, out.1.cached_data)) =
        Except.ok (1, some pre, add_scaled_lattice_prop policy pre lsm)) ∧
      (force = false → fsExists fs save_path = true →
        (CrystDataset.init policy pre fs name path save_path force prop niggli
            primitive gm w lsm).map
          (fun out => ((out.2.2.filter Event.isPreprocessCall).length,
                       out.2.1, out.1.cached_data)) =
        Except.ok (0, fs,
          add_scaled_lattice_prop policy ((fsLoad fs save_path).getD []) lsm)) := by
  intro policy pre fs name path save_path force prop niggli primitive gm w lsm
  constructor
  · intro h
    have hcond : (force || !(fsExists fs save_path)) = true := by
      rcases h with h | h <;> simp [h]
    unfold CrystDataset.init
    rw [if_pos hcond]
    simp [Except.map, Event.isPreprocessCall, fsLoad, fsStore, assocLookup]
  · intro hforce hex
    obtain ⟨blob, hb⟩ := Option.isSome_iff_exists.mp hex
    have hb2 : fsLoad fs save_path = some blob := hb
    have hcond : ¬ ((force || !(fsExists fs save_path)) = true) := by
      simp [hforce, hex]
    unfold CrystDataset.init
    rw [if_neg hcond, hb2]
    simp [Except.map, Event.isPreprocessCall, hb2]

/-- C2 witness: the theorem applied to concrete inputs — the compute path
on an empty filesystem with the force flag set, and the load path on a
filesystem already holding a blob at the destination with the flag
clear. -/
theorem C2_cache_decision_witness :
    (CrystDataset.init polEx [recEx] [] "mp20" "train.csv" "train.pkl" true
        "formation_energy" true false "crystalnn" 4 "scale_length").map
      (fun out => ((out.2.2.filter Event.isPreprocessCall).length,
                   fsLoad out.2.1 "train.pkl", out.1.cached_data)) =
      Except.ok (1, some [recEx], add_scaled_lattice_prop polEx [recEx] "scale_length") ∧
    (CrystDataset.init polEx [recEx] fsEx1 "mp20" "train.csv" "train.pkl" false
        "formation_energy" true false "crystalnn" 4 "scale_length").map
      (fun out => ((out.2.2.filter Event.isPreprocessCall).length,
                   out.2.1, out.1.cached_data)) =
      Except.ok (0, fsEx1,
        add_scaled_lattice_prop polEx ((fsLoad fsEx1 "train.pkl").getD []) "scale_length") :=
  ⟨(C2_cache_decision polEx [recEx] [] "mp20" "train.csv" "train.pkl" true
      "formation_energy" true false "crystalnn" 4 "scale_length").1 (Or.inl rfl),
   (C2_cache_decision polEx [recEx] fsEx1 "mp20" "train.csv" "train.pkl" false
      "formation_energy" true false "crystalnn" 4 "scale_length").2 rfl (by decide)⟩

/-- C6: in every construction of either variant, the scaled-lattice
augmentation collaborator is called exactly once; its argument is the full
record list from which `cached_data` is derived; the call is the last
construction event (after the compute or load step); and both scaler
fields are still `None` when construction finishes, so no scaler can have
been fit or attached before it ran. -/
theorem C6_scaled_lattice_once :
    (∀ (policy : LatticePolicy) (pre : List CachedRecord) (fs : FS)
      (name path save_path : String) (force : Bool) (prop : String)
      (niggli primitive : Bool) (gm : String) (w : ℕ) (lsm : String)
      (ds : CrystDataset) (fs2 : FS) (evs : List Event),
      CrystDataset.init policy pre fs name path save_path force prop niggli
        primitive gm w lsm = Except.ok (ds, fs2, evs) →
      (evs.filter Event.isScaledLatticeCall).length = 1 ∧
      (∀ (raw : List CachedRecord) (m : String),
        Event.scaledLatticeCall raw m ∈ evs →
        m = lsm ∧ ds.cached_data = add_scaled_lattice_prop policy raw lsm ∧
        evs.getLast? = some (Event.scaledLatticeCall raw m)) ∧
      ds.scaler = none ∧ ds.lattice_scaler = none) ∧
    (∀ (policy : LatticePolicy) (pre : List CachedRecord) (niggli primitive : Bool)
      (gm : String) (w : ℕ) (lsm : String),
      ((TensorCrystDataset.init policy pre niggli primitive gm w lsm).2.filter
        Event.isScaledLatticeCall) = [Event.scaledLatticeCall pre lsm] ∧
      (TensorCrystDataset.init policy pre niggli primitive gm w lsm).2.getLast? =
        some (Event.scaledLatticeCall pre lsm) ∧
      (TensorCrystDataset.init policy pre niggli primitive gm w lsm).1.cached_data =
        add_scaled_lattice_prop policy pre lsm ∧
      (TensorCrystDataset.init policy pre niggli primitive gm w lsm).1.scaler = none ∧
      (TensorCrystDataset.init policy pre niggli primitive gm w lsm).1.lattice_scaler =
        none) := by
  constructor
  · intro policy pre fs name path save_path force prop niggli primitive gm w lsm
      ds fs2 evs h
    unfold CrystDataset.init at h
    split at h
    · injection h with h2
      have hds : ds = _ := (congrArg (fun t => t.1) h2).symm
      have hevs : evs = _ := (congrArg (fun t => t.2.2) h2).symm
      subst hds
      subst hevs
      refine ⟨rfl, ?_, rfl, rfl⟩
      intro raw m hm
      simp only [List.mem_cons, List.not_mem_nil, or_false] at hm
      rcases hm with hm | hm | hm
      · exact Event.noConfusion hm
      · exact Event.noConfusion hm
      · injection hm with hraw hmeq
        subst hraw
        subst hmeq
        exact ⟨rfl, rfl, rfl⟩
    · split at h
      · exact absurd h (by simp)
      rename_i blob hblob
      injection h with h2
      have hds : ds = _ := (congrArg (fun t => t.1) h2).symm
      have hevs : evs = _ := (congrArg (fun t => t.2.2) h2).symm
      subst hds
      subst hevs
      refine ⟨rfl, ?_, rfl, rfl⟩
      intro raw m hm
      simp only [List.mem_cons, List.not_mem_nil, or_false] at hm
      rcases hm with hm | hm
      · exact Event.noConfusion hm
      · injection hm with hraw hmeq
        subst hraw
        subst hmeq
        exact ⟨rfl, rfl, rfl⟩
  · intro policy pre niggli primitive gm w lsm
    exact ⟨rfl, rfl, rfl, rfl, rfl⟩

/-- C6 witness: the labelled part of the theorem applied to a concrete
compute-path construction, with the membership instance at the one
augmentation event in its trace. -/
theorem C6_scaled_lattice_once_witness :
    (evsEx1.filter Event.isScaledLatticeCall).length = 1 ∧
    ("scale_length" = "scale_length" ∧
      dsEx1.cached_data = add_scaled_lattice_prop polEx [recEx] "scale_length" ∧
      evsEx1.getLast? = some (Event.scaledLatticeCall [recEx] "scale_length")) ∧
    dsEx1.scaler = none ∧ dsEx1.lattice_scaler = none := by
  have h := C6_scaled_lattice_once.1 polEx [recEx] [] "mp20" "train.csv" "train.pkl"
    true "formation_energy" true false "crystalnn" 4 "scale_length" dsEx1 fsEx1 evsEx1 rfl
  exact ⟨h.1, h.2.1 [recEx] "scale_length" (by simp [evsEx1]), h.2.2⟩

/-- C7: constructing the label-free dataset performs no filesystem read or
write (no such event in its trace), calls the `preprocess_tensors`
collaborator directly (exactly that one call event), has length equal to
the collaborator's record count, and every successful indexed access
returns a bundle with no target field (`y` absent), not a default value. -/
theorem C7_tensor_no_fs_no_target :
    ∀ (policy : LatticePolicy) (pre : List CachedRecord) (niggli primitive : Bool)
      (gm : String) (w : ℕ) (lsm : String),
      (∀ e ∈ (TensorCrystDataset.init policy pre niggli primitive gm w lsm).2,
        e.isFsAccess = false) ∧
      ((TensorCrystDataset.init policy pre niggli primitive gm w lsm).2.filter
        Event.isPreprocessTensorsCall) = [Event.preprocessTensorsCall niggli primitive gm] ∧
      (TensorCrystDataset.init policy pre niggli primitive gm w lsm).1.len = pre.length ∧
      (∀ (i : ℤ) (d : Data),
        (TensorCrystDataset.init policy pre niggli primitive gm w lsm).1.getItem i =
          Except.ok d → d.y = none) := by
  intro policy pre niggli primitive gm w lsm
  refine ⟨?_, rfl, ?_, ?_⟩
  · intro e he
    simp only [TensorCrystDataset.init, List.mem_cons, List.not_mem_nil, or_false] at he
    rcases he with rfl | rfl <;> rfl
  · simp [TensorCrystDataset.init, TensorCrystDataset.len, add_scaled_lattice_prop]
  · intro i d hd
    obtain ⟨r, _, hdef⟩ := TensorCrystDataset.getItem_ok_inversion hd
    subst hdef
    rfl

/-- C7 witness: the theorem applied to a concrete label-free construction
over one record: its events are not filesystem accesses, the collaborator
call event is present, the length is 1, and the access at index 0 carries
no target. -/
theorem C7_tensor_no_fs_no_target_witness :
    Event.isFsAccess (Event.preprocessTensorsCall true false "crystalnn") = false ∧
    ((TensorCrystDataset.init polEx [recEx] true false "crystalnn" 4 "scale_length").2.filter
      Event.isPreprocessTensorsCall) = [Event.preprocessTensorsCall true false "crystalnn"] ∧
    (TensorCrystDataset.init polEx [recEx] true false "crystalnn" 4 "scale_length").1.len =
      1 ∧
    dataTsEx.y = none := by
  have h := C7_tensor_no_fs_no_target polEx [recEx] true false "crystalnn" 4 "scale_length"
  exact ⟨h.1 _ (by simp [TensorCrystDataset.init]), h.2.1, h.2.2.1,
    h.2.2.2 0 dataTsEx rfl⟩

/-- C8 counterexample: two labelled datasets constructed identically except
for the graph-construction method identifier have equal summaries, so the
summary does not preserve the graph-method (nor the other configuration
values) — refuting the claim that the summary preserves them verbatim. -/
theorem C8_cex_summary_omits_config :
    (CrystDataset.init polEx [recEx] [] "mp20" "train.csv" "train.pkl" true
        "formation_energy" true false "crystalnn" 4 "scale_length").map
      (fun out => CrystDataset.repr out.1) =
    (CrystDataset.init polEx [recEx] [] "mp20" "train.csv" "train.pkl" true
        "formation_energy" true false "cutoff" 4 "scale_length").map
      (fun out => CrystDataset.repr out.1) ∧
    (CrystDataset.init polEx [recEx] [] "mp20" "train.csv" "train.pkl" true
        "formation_energy" true false "crystalnn" 4 "scale_length").map
      (fun out => out.1.graph_method) ≠
    (CrystDataset.init polEx [recEx] [] "mp20" "train.csv" "train.pkl" true
        "formation_energy" true false "cutoff" 4 "scale_length").map
      (fun out => out.1.graph_method) := by
  refine ⟨rfl, fun hcontra => ?_⟩
  injection hcontra with h2
  exact absurd h2 (by decide)

/-- C8 (amended): the summary preserves verbatim the name, the source path
and the save path; the declared property name, the niggli-reduction flag,
the primitive-cell flag, the graph-construction method and the
lattice-scaling policy are preserved verbatim as fields of the dataset but
do not appear in the summary. -/
theorem C8_summary_name_paths_fields :
    ∀ (policy : LatticePolicy) (pre : List CachedRecord) (fs : FS)
      (name path save_path : String) (force : Bool) (prop : String)
      (niggli primitive : Bool) (gm : String) (w : ℕ) (lsm : String)
      (ds : CrystDataset) (fs2 : FS) (evs : List Event),
      CrystDataset.init policy pre fs name path save_path force prop niggli
        primitive gm w lsm = Except.ok (ds, fs2, evs) →
      CrystDataset.repr ds =
        "CrystDataset(self.name=" ++ name ++ ", self.path=" ++ path ++
          ", self.save_path=" ++ save_path ++ ")" ∧
      ds.name = name ∧ ds.path = path ∧ ds.save_path = save_path ∧
      ds.prop = prop ∧ ds.niggli = niggli ∧ ds.primitive = primitive ∧
      ds.graph_method = gm ∧ ds.lattice_scale_method = lsm := by
  intro policy pre fs name path save_path force prop niggli primitive gm w lsm
    ds fs2 evs h
  unfold CrystDataset.init at h
  split at h
  · injection h with h2
    have hds : ds = _ := (congrArg (fun t => t.1) h2).symm
    subst hds
    exact ⟨rfl, rfl, rfl, rfl, rfl, rfl, rfl, rfl, rfl⟩
  · split at h
    · exact absurd h (by simp)
    injection h with h2
    have hds : ds = _ := (congrArg (fun t => t.1) h2).symm
    subst hds
    exact ⟨rfl, rfl, rfl, rfl, rfl, rfl, rfl, rfl, rfl⟩

/-- C8 witness: the amended theorem applied to a concrete compute-path
construction. -/
theorem C8_summary_name_paths_fields_witness :
    CrystDataset.repr dsEx1 =
      "CrystDataset(self.name=" ++ "mp20" ++ ", self.path=" ++ "train.csv" ++
        ", self.save_path=" ++ "train.pkl" ++ ")" ∧
    dsEx1.name = "mp20" ∧ dsEx1.path = "train.csv" ∧
    dsEx1.save_path = "train.pkl" ∧ dsEx1.prop = "formation_energy" ∧
    dsEx1.niggli = true ∧ dsEx1.primitive = false ∧
    dsEx1.graph_method = "crystalnn" ∧ dsEx1.lattice_scale_method = "scale_length" :=
  C8_summary_name_paths_fields polEx [recEx] [] "mp20" "train.csv" "train.pkl" true
    "formation_energy" true false "crystalnn" 4 "scale_length" dsEx1 fsEx1 evsEx1 rfl

/-- C9: on the compute path the raw record list is dumped to the
destination before the augmentation event (the trace is preprocess, then
write, then augment), so the persisted blob is exactly the unaugmented
`preprocess` result — if no raw record carries `scaled_lattice`, no
persisted record does — while in every construction (compute or load) the
final `cached_data` has `scaled_lattice` attached to every record. -/
theorem C9_dump_precedes_augmentation :
    ∀ (policy : LatticePolicy) (pre : List CachedRecord) (fs : FS)
      (name path save_path : String) (force : Bool) (prop : String)
      (niggli primitive : Bool) (gm : String) (w : ℕ) (lsm : String)
      (ds : CrystDataset) (fs2 : FS) (evs : List Event),
      (∀ r ∈ pre, r.scaled_lattice = none) →
      CrystDataset.init policy pre fs name path save_path force prop niggli
        primitive gm w lsm = Except.ok (ds, fs2, evs) →
      ((force = true ∨ fsExists fs save_path = false) →
        evs = [Event.preprocessCall path w niggli primitive gm [prop],
               Event.fsWrite save_path,
               Event.scaledLatticeCall pre lsm] ∧
        fsLoad fs2 save_path = some pre ∧
        (∀ b, fsLoad fs2 save_path = some b → ∀ r ∈ b, r.scaled_lattice = none)) ∧
      (∀ r ∈ ds.cached_data, r.scaled_lattice.isSome = true) := by
  intro policy pre fs name path save_path force prop niggli primitive gm w lsm
    ds fs2 evs hpre h
  unfold CrystDataset.init at h
  split at h
  · injection h with h2
    have hds : ds = _ := (congrArg (fun t => t.1) h2).symm
    have hfs2 : fs2 = _ := (congrArg (fun t => t.2.1) h2).symm
    have hevs : evs = _ := (congrArg (fun t => t.2.2) h2).symm
    subst hds
    subst hfs2
    subst hevs
    constructor
    · intro _
      have hload : fsLoad (fsStore fs save_path pre) save_path = some pre := by
        simp [fsLoad, fsStore, assocLookup]
      refine ⟨rfl, hload, ?_⟩
      intro b hb r hr
      rw [hload] at hb
      injection hb with hbe
      subst hbe
      exact hpre r hr
    · intro r hr
      simp only [add_scaled_lattice_prop, List.mem_map] at hr
      obtain ⟨r0, _, rfl⟩ := hr
      rfl
  · rename_i hcond
    split at h
    · exact absurd h (by simp)
    rename_i blob hblob
    injection h with h2
    have hds : ds = _ := (congrArg (fun t => t.1) h2).symm
    subst hds
    constructor
    · intro hbranch
      exfalso
      rcases hbranch with hb | hb <;> simp [hb] at hcond
    · intro r hr
      simp only [add_scaled_lattice_prop, List.mem_map] at hr
      obtain ⟨r0, _, rfl⟩ := hr
      rfl

/-- C9 witness: the theorem applied to a concrete compute-path
construction: the trace dumps before augmenting, the persisted blob is the
raw record (still without `scaled_lattice`), and the in-memory record has
it attached. -/
theorem C9_dump_precedes_augmentation_witness :
    (evsEx1 = [Event.preprocessCall "train.csv" 4 true false "crystalnn"
                 ["formation_energy"],
               Event.fsWrite "train.pkl",
               Event.scaledLatticeCall [recEx] "scale_length"] ∧
     fsLoad fsEx1 "train.pkl" = some [recEx] ∧
     recEx.scaled_lattice = none) ∧
    recExAug.scaled_lattice.isSome = true := by
  have h := C9_dump_precedes_augmentation polEx [recEx] [] "mp20" "train.csv"
    "train.pkl" true "formation_energy" true false "crystalnn" 4 "scale_length"
    dsEx1 fsEx1 evsEx1 (by decide) rfl
  have h1 := h.1 (Or.inl rfl)
  exact ⟨⟨h1.1, h1.2.1, h1.2.2 [recEx] h1.2.1 recEx (by simp)⟩,
    h.2 recExAug (List.mem_singleton.mpr rfl)⟩

/-- C10: `__len__` and `__getitem__` read `self.cached_data` and the
configuration fields but assign nothing, so in the method-call view both
return the state unchanged; consequently the length observed after an
access equals the length before, and two successive accesses at the same
index return structurally equal results — for both variants. -/
theorem C10_access_preserves_state :
    ∀ (ds : CrystDataset) (ts : TensorCrystDataset) (i : ℤ),
      (ds.lenM).2 = ds ∧ (ds.getItemM i).2 = ds ∧
      ((ds.getItemM i).2.lenM).1 = (ds.lenM).1 ∧
      (((ds.getItemM i).2).getItemM i).1 = (ds.getItemM i).1 ∧
      (ts.lenM).2 = ts ∧ (ts.getItemM i).2 = ts ∧
      ((ts.getItemM i).2.lenM).1 = (ts.lenM).1 ∧
      (((ts.getItemM i).2).getItemM i).1 = (ts.getItemM i).1 :=
  fun _ _ _ => ⟨rfl, rfl, rfl, rfl, rfl, rfl, rfl, rfl⟩

end CDVAE
